import Mathlib

/-!
Verification of the Dirac command resolution and execution engine.

The definitions below are a shallow embedding of the Rust sources:
  * `src/services/command.rs` — `ShellCommandExecutor` (`is_valid_command`,
    `handle_cd`, `execute`),
  * `src/services/ai.rs` — `OllamaProcessor::process` (transport error
    mapping and the COMMAND/EXPLANATION response parser),
  * `src/ui/terminal.rs` — `DiracTerminal::process_command` classification.

Rust `str` methods used by the sources (`trim`, `starts_with`, `contains`,
`split_whitespace`, `splitn(2, ' ')`, `lines`, `trim_start_matches`) are
modelled as executable functions over the character list of a `String`,
mirroring the Rust semantics (on the ASCII inputs the program manipulates).
Filesystem, process-spawning and HTTP effects are modelled as explicit
environment records of pure functions.
-/

namespace Dirac

/-- Rust `char::is_whitespace` restricted to the ASCII whitespace the program
actually meets. -/
def isWs (c : Char) : Bool := c.isWhitespace

/-- Rust `str::trim` on the underlying character list. -/
def rustTrim (s : String) : String :=
  ⟨((s.toList.dropWhile isWs).reverse.dropWhile isWs).reverse⟩

/-- Rust `str::starts_with` for a string pattern. -/
def rustStartsWith (s pat : String) : Bool :=
  pat.toList.isPrefixOf s.toList

/-- Rust `str::contains` for a `char` pattern. -/
def rustContainsChar (s : String) (c : Char) : Bool :=
  s.toList.contains c

/-- Rust `str::contains` for a string pattern: some suffix of `s` starts with
`pat`. -/
def rustContainsStr (s pat : String) : Bool :=
  s.toList.tails.any (fun t => pat.toList.isPrefixOf t)

/-- Fueled worker for `rustTrimStartMatches`. -/
def rustTrimStartMatchesAux (pat : String) : Nat → String → String
  | 0, s => s
  | Nat.succ n, s =>
    if pat ≠ "" ∧ rustStartsWith s pat then
      rustTrimStartMatchesAux pat n ⟨s.toList.drop pat.toList.length⟩
    else s

/-- Rust `str::trim_start_matches`: repeatedly strips the pattern from the
front as long as it is a prefix. -/
def rustTrimStartMatches (s pat : String) : String :=
  rustTrimStartMatchesAux pat s.toList.length s

/-- Rust `str::splitn(2, ' ')` as used by `execute`: the part before the first
space, and everything after it (empty when there is no space). -/
def splitn2 (s : String) : String × String :=
  (⟨s.toList.takeWhile (fun c => c ≠ ' ')⟩,
   ⟨(s.toList.dropWhile (fun c => c ≠ ' ')).drop 1⟩)

/-- Splits a character list at every separator satisfying `p`, keeping empty
segments (the separator characters are dropped). -/
def splitCharsAux (p : Char → Bool) : List Char → List Char → List (List Char)
  | [], acc => [acc.reverse]
  | c :: rest, acc =>
    if p c then acc.reverse :: splitCharsAux p rest []
    else splitCharsAux p rest (c :: acc)

/-- Rust `str::split_whitespace`: maximal non-empty runs of non-whitespace. -/
def rustSplitWhitespace (s : String) : List String :=
  ((splitCharsAux isWs s.toList []).filter (fun l => l ≠ [])).map
    (fun l => (⟨l⟩ : String))

/-- Worker for `rustLines`, accumulating the current line in reverse. -/
def rustLinesAux : List Char → List Char → List (List Char)
  | [], acc => if acc = [] then [] else [acc.reverse]
  | c :: rest, acc =>
    if c = '\n' then
      (if acc.head? = some '\r' then acc.tail.reverse else acc.reverse)
        :: rustLinesAux rest []
    else rustLinesAux rest (c :: acc)

/-- Rust `str::lines`: split at `\n` (a preceding `\r` is stripped); a final
line ending is optional and produces no empty trailing line. -/
def rustLines (s : String) : List String :=
  (rustLinesAux s.toList []).map (fun l => (⟨l⟩ : String))

/-- Rust `join(" ")` over a token list, as in
`split_whitespace().skip(2).collect::<Vec<_>>().join(" ")`. -/
def joinSpace : List String → String
  | [] => ""
  | [x] => x
  | x :: y :: rest => x ++ " " ++ joinSpace (y :: rest)

/-! ## Core error taxonomy (`src/core/lib.rs`) -/

/-- `DiracError` from `src/core/lib.rs`. -/
inductive DiracError where
  | CommandExecutionError (msg : String)
  | AIProcessingError (msg : String)
  | InputError (msg : String)
deriving DecidableEq

/-- `DiracResult<String>` from `src/core/lib.rs` (Rust `Result<String, DiracError>`). -/
inductive DiracResult where
  | ok (output : String)
  | error (e : DiracError)
deriving DecidableEq

/-- True exactly on `DiracResult.ok`. -/
def DiracResult.isOk : DiracResult → Bool
  | .ok _ => true
  | .error _ => false

/-- True exactly when the result is an `InputError`-kind failure. -/
def DiracResult.isInputError : DiracResult → Bool
  | .error (.InputError _) => true
  | _ => false

/-! ## Execution environment model

The OS-level effects of `ShellCommandExecutor` (`which` lookups,
`env::set_current_dir`, `env::current_dir`, spawning `<shell> -c <command>`,
and the `ai_processor.process(..)` calls made from error branches) are
modelled as an environment of pure functions. -/

/-- Outcome of a completed spawned process (`std::process::Output`).
`elapsedMs` is the wall-clock duration the command took; the source never
reads it — there is no timeout anywhere in `execute`. -/
structure SpawnResult where
  success : Bool
  stdout : String
  stderr : String
  elapsedMs : Nat
deriving DecidableEq

/-- `std::io::ErrorKind` cases distinguished by `execute`'s spawn `map_err`. -/
inductive SpawnErrKind where
  | notFound
  | permissionDenied
  | otherKind
deriving DecidableEq

/-- Result of attempting to spawn the external shell. -/
inductive SpawnOutcome where
  | ok (r : SpawnResult)
  | err (k : SpawnErrKind) (msg : String)
deriving DecidableEq

/-- Environment of OS / AI effects consumed by `ShellCommandExecutor`.
`spawn` takes the full `-c` argument and the working directory handed to the
child (`none` on the tokio `lsof`/`netstat` path, which sets no directory);
`aiSuggest` models `block_on(ai_processor.process(input, context))` together
with its `unwrap_or_else` fallback, hence total. -/
structure ExecEnv where
  which : String → Bool
  setCurrentDirOk : String → Bool
  osErr : String → String
  osCurrentDirBefore : Option String
  osCurrentDirAfter : Option String
  spawn : String → Option String → SpawnOutcome
  aiSuggest : String → String → String

/-- Result of one `execute` call together with its observable effects:
the final `current_dir` cell, the verbatim argument passed to `<shell> -c`
(if a spawn was attempted), and how many AI-oracle calls were made. -/
structure ExecEffects where
  result : DiracResult
  dir : String
  spawnedArg : Option String
  aiCalls : Nat
deriving DecidableEq

/-! ## `ShellCommandExecutor` (`src/services/command.rs`) -/

/-- `ShellCommandExecutor::is_valid_command` (command.rs lines 31–40):
looks only at the first whitespace token; `cd` is built in, anything else
must resolve via `which`. -/
def is_valid_command (which : String → Bool) (command : String) : Bool :=
  let firstWord := (rustSplitWhitespace command).headD ""
  if firstWord = "" then false
  else if firstWord = "cd" then true
  else which firstWord

/-- The suggestion text chosen by `handle_cd` when `set_current_dir` fails
(command.rs lines 64–73), keyed on the trimmed target. -/
def cdFailSuggestion (path : String) : String :=
  if path = "back" then "Use \x27cd ..\x27 to navigate to the parent directory."
  else if rustContainsChar path '/' then
    "Make sure the directory exists and you have permission to access it."
  else
    "Use \x27cd ..\x27 to go up one directory or \x27cd ~\x27 to go to your home directory."

/-- Target resolution of `handle_cd` (command.rs lines 52–56): verbatim when
the trimmed target starts with `/`, otherwise the string join
`{current_dir}/{path}`. -/
def cdResolve (currentDir path : String) : String :=
  if rustStartsWith path "/" then path else currentDir ++ "/" ++ path

/-- `ShellCommandExecutor::handle_cd` (command.rs lines 46–77). The target is
resolved by `cdResolve`; no `~` expansion and no canonicalization occur, and
the joined string itself is stored on success. -/
def handle_cd (env : ExecEnv) (currentDir : String) (args : String) : ExecEffects :=
  let path := rustTrim args
  if path = "" then
    { result := .error (.CommandExecutionError "No path specified for cd"),
      dir := currentDir, spawnedArg := none, aiCalls := 0 }
  else
    let newDir := cdResolve currentDir path
    if env.setCurrentDirOk newDir then
      { result := .ok "", dir := newDir, spawnedArg := none, aiCalls := 0 }
    else
      { result := .error (.CommandExecutionError
          ("Failed to change directory: " ++ env.osErr newDir ++
           "\n\nℹ️ Suggestion:\n" ++ cdFailSuggestion path)),
        dir := currentDir, spawnedArg := none, aiCalls := 0 }

/-- `command.starts_with("lsof") || command.starts_with("netstat")`
(command.rs line 108): selects the tokio spawn path. -/
def monitorPrefixed (command : String) : Bool :=
  rustStartsWith command "lsof" || rustStartsWith command "netstat"

/-- The `map_err` arm of the non-monitor spawn (command.rs lines 123–147):
`NotFound` and `PermissionDenied` get fixed suggestions, anything else asks
the AI processor for one. -/
def spawnErrEffects (env : ExecEnv) (command dir1 : String) :
    SpawnErrKind → String → ExecEffects
  | .notFound, msg =>
    { result := .error (.CommandExecutionError
        ("Command execution error: " ++ msg ++ "\n\n" ++
         "Command \x27" ++ command ++
         "\x27 not found. Check if it\x27s installed or try using natural language to describe what you want to do.")),
      dir := dir1, spawnedArg := some command, aiCalls := 0 }
  | .permissionDenied, msg =>
    { result := .error (.CommandExecutionError
        ("Command execution error: " ++ msg ++ "\n\n" ++
         "Permission denied for command \x27" ++ command ++
         "\x27. Try using \x27sudo\x27 if you have the necessary permissions.")),
      dir := dir1, spawnedArg := some command, aiCalls := 0 }
  | .otherKind, msg =>
    { result := .error (.CommandExecutionError
        ("Command execution error: " ++ msg ++ "\n\n" ++
         "\n\nℹ️ Suggestion:\n" ++
         env.aiSuggest ("Command failed: " ++ command ++ "\nError: " ++ msg)
           "Please suggest a fix or alternative command" ++ "\n")),
      dir := dir1, spawnedArg := some command, aiCalls := 1 }

/-- The spawn-and-report tail of `execute` (command.rs lines 107–189),
reached once the command is non-empty, not `cd`, and validated: spawn the
shell on the full command string, re-synchronize the directory cell, and
report failure whenever the exit status is unsuccessful or stderr is
non-empty. -/
def executeSpawnPhase (env : ExecEnv) (dir1 cmd args command : String) : ExecEffects :=
  let isMonitor := monitorPrefixed command
  match env.spawn command (if isMonitor then none else some dir1) with
  | .err k msg =>
    if isMonitor then
      { result := .error (.CommandExecutionError msg),
        dir := dir1, spawnedArg := some command, aiCalls := 0 }
    else spawnErrEffects env command dir1 k msg
  | .ok out =>
    let dir2 := env.osCurrentDirAfter.getD dir1
    if out.success = false ∨ out.stderr ≠ "" then
      let errorMessage := if out.stderr ≠ "" then out.stderr else "Command failed"
      let suggestion :=
        if cmd = "cd" then
          -- unreachable here (`cd` returned earlier); kept verbatim from
          -- command.rs lines 161–171, which key `contains` on raw `args`
          (if rustTrim args = "back" then
            "Use \x27cd ..\x27 to navigate to the parent directory."
          else if rustContainsChar args '/' then
            "Make sure the directory exists and you have permission to access it."
          else
            "Use \x27cd ..\x27 to go up one directory or \x27cd ~\x27 to go to your home directory.")
        else env.aiSuggest
          ("Command failed: " ++ command ++ "\nError: " ++ errorMessage ++
           "\nCurrent directory: " ++ dir2)
          "Please analyze this error and suggest a fix or alternative command. Consider the current directory context."
      { result := .error (.CommandExecutionError
          (errorMessage ++ "\n\nℹ️ Suggestion:\n" ++ suggestion)),
        dir := dir2, spawnedArg := some command,
        aiCalls := if cmd = "cd" then 0 else 1 }
    else
      { result := .ok out.stdout, dir := dir2,
        spawnedArg := some command, aiCalls := 0 }

/-- `ShellCommandExecutor::execute` (command.rs lines 82–190).
Empty input is rejected up front with a `CommandExecutionError`; `cd` is
routed to `handle_cd`; otherwise the directory cell is re-synchronized from
the OS, the first token is validated, and `executeSpawnPhase` runs the
shell with the full command string as the single `-c` argument. The outcome
is a failure whenever the exit status is unsuccessful **or** stderr is
non-empty (command.rs line 159). There is no timeout. -/
def execute (env : ExecEnv) (currentDir : String) (command : String) : ExecEffects :=
  if rustTrim command = "" then
    { result := .error (.CommandExecutionError "Empty command provided"),
      dir := currentDir, spawnedArg := none, aiCalls := 0 }
  else
    let cmd := (splitn2 command).1
    let args := (splitn2 command).2
    if cmd = "cd" then handle_cd env currentDir args
    else
      let dir1 := env.osCurrentDirBefore.getD currentDir
      if is_valid_command env.which cmd = false then
        { result := .error (.CommandExecutionError
            ("Command \x27" ++ cmd ++ "\x27 not found or not executable")),
          dir := dir1, spawnedArg := none, aiCalls := 0 }
      else executeSpawnPhase env dir1 cmd args command

/-! ## `OllamaProcessor::process` (`src/services/ai.rs`) -/

/-- The safe-default explanation for empty/unparseable model text
(ai.rs lines 138 and 157). -/
def defaultUnclearExpl : String :=
  "Lists files and directories in the current directory. This is a safe default command when the request is unclear."

/-- The full default reply when the HTTP body is not usable JSON
(ai.rs line 171). -/
def defaultCannotReply : String :=
  "COMMAND: ls\nEXPLANATION: Lists files and directories in the current directory. This is a safe default command when the request cannot be processed."

/-- The `COMMAND:`/`EXPLANATION:` line loop shared verbatim by
ai.rs lines 145–151 and terminal.rs lines 347–353: each matching line
overwrites the previous value, so the **last** matching line wins. -/
def parseCmdExp (lines : List String) : String × String :=
  lines.foldl
    (fun acc line =>
      if rustStartsWith line "COMMAND:" then
        (rustTrim (rustTrimStartMatches line "COMMAND:"), acc.2)
      else if rustStartsWith line "EXPLANATION:" then
        (acc.1, rustTrim (rustTrimStartMatches line "EXPLANATION:"))
      else acc)
    ("", "")

/-- ai.rs lines 135–163: given the (raw) `response` field text, trim it,
apply the line parser, and apply the fallback policy, producing the
`(command, explanation)` pair that is re-serialized on line 166. -/
def ollamaExtract (responseText : String) : String × String :=
  let t := rustTrim responseText
  if t = "" then ("ls", defaultUnclearExpl)
  else
    let p := parseCmdExp (rustLines t)
    if p.1 = "" then ("ls", if p.2 = "" then defaultUnclearExpl else p.2)
    else if p.2 = "" then (p.1, "Executes the specified command.")
    else p

/-- Shape of the HTTP response body as seen through `serde_json`
(ai.rs lines 120–168). -/
inductive BodyShape where
  | withError (msg : String)
  | withResponse (text : String)
  | otherJson
  | notJson
deriving DecidableEq

/-- Outcome of the single POST to the Ollama endpoint
(ai.rs lines 89–117). -/
inductive TransportOutcome where
  | connectErr
  | timeoutErr
  | otherErr (cause : String)
  | bodyReadErr (cause : String)
  | reply (body : BodyShape)
deriving DecidableEq

/-- The connection-refused remediation message (ai.rs lines 102–105). -/
def connectMsg : String :=
  "Ollama service is not running. To install and start Ollama:\n" ++
  "1. Visit https://ollama.ai to download and install Ollama\n" ++
  "2. Start the Ollama service\n" ++
  "3. Run \x27ollama pull qwen2.5:3b\x27 to download the model"

/-- The transport-timeout message (ai.rs line 108). -/
def timeoutMsg : String :=
  "Connection to Ollama service timed out. Please check if the service is responding."

/-- The model-not-found remediation, naming the configured model
(ai.rs lines 124–128). -/
def modelNotFoundMsg (model : String) : String :=
  "Model \x27" ++ model ++ "\x27 not found. To install the model:\n" ++
  "1. Ensure Ollama is running\n" ++
  "2. Run \x27ollama pull " ++ model ++ "\x27 to download the model"

/-- `OllamaProcessor::process` after prompt assembly (ai.rs lines 89–172),
as a function of the configured model identifier and the transport
outcome. -/
def ollamaProcess (model : String) (t : TransportOutcome) : DiracResult :=
  match t with
  | .connectErr => .error (.AIProcessingError connectMsg)
  | .timeoutErr => .error (.AIProcessingError timeoutMsg)
  | .otherErr cause =>
    .error (.AIProcessingError ("Failed to connect to AI service: " ++ cause))
  | .bodyReadErr cause =>
    .error (.AIProcessingError ("Failed to read AI response: " ++ cause))
  | .reply (.withError msg) =>
    if rustContainsStr msg "model" then
      .error (.AIProcessingError (modelNotFoundMsg model))
    else .error (.AIProcessingError ("Ollama error: " ++ msg))
  | .reply (.withResponse text) =>
    .ok ("COMMAND: " ++ (ollamaExtract text).1 ++
         "\nEXPLANATION: " ++ (ollamaExtract text).2)
  | .reply .otherJson => .ok defaultCannotReply
  | .reply .notJson => .ok defaultCannotReply

/-! ## `DiracTerminal::process_command` (`src/ui/terminal.rs` lines 268–313) -/

/-- The action `process_command` decides on: print directory-typo
suggestions, execute a command directly, or hand the input to the AI
resolution path. -/
inductive TermAction where
  | noOp
  | suggestSimilar (dirs : List String)
  | execDirect (cmd : String)
  | aiProcess (input : String)
deriving DecidableEq

/-- Filesystem facts consumed by `process_command`: the validator\x27s `which`
lookup, `Path::new(path).exists()`, and the `read_dir(".")` listing as
`(file_name, is_dir)` pairs. -/
structure TermEnv where
  which : String → Bool
  pathExists : String → Bool
  readDirOk : Bool
  entries : List (String × Bool)

/-- The similar-directory filter of terminal.rs lines 281–288: directories
whose name shares the first character with the typed path, both at least two
characters long. -/
def similarDirs (entries : List (String × Bool)) (path : String) : List String :=
  (entries.filter (fun e =>
      e.2 = true ∧ e.1.toList.length ≥ 2 ∧ path.toList.length ≥ 2 ∧
      e.1.toList.head? = path.toList.head?)).map (fun e => e.1)

/-- `DiracTerminal::process_command` (terminal.rs lines 268–313): empty
input is ignored; a `cd` target that does not exist but has similarly named
directories yields suggestions; the navigation prefixes `go to `, `open `,
`change to ` are rewritten to `cd` followed by the whitespace tokens **after
the first two** (`split_whitespace().skip(2)`, terminal.rs line 303); a
validator-approved input runs directly; everything else goes to the AI. -/
def process_command (env : TermEnv) (input0 : String) : TermAction :=
  let input := rustTrim input0
  if input = "" then .noOp
  else
    let typo : Option (List String) :=
      if rustStartsWith input "cd " then
        let path := rustTrim (rustTrimStartMatches input "cd ")
        if env.pathExists path = false ∧ env.readDirOk then
          let sim := similarDirs env.entries path
          if sim ≠ [] then some sim else none
        else none
      else none
    match typo with
    | some dirs => .suggestSimilar dirs
    | none =>
      if rustStartsWith input "go to " ∨ rustStartsWith input "open " ∨
          rustStartsWith input "change to " then
        .execDirect ("cd " ++ joinSpace ((rustSplitWhitespace input).drop 2))
      else if is_valid_command env.which input then .execDirect input
      else .aiProcess input

/-! ## Spec-side canonicalization (for claim C4 only) -/

/-- Resolves `.`/`..`/empty components left to right over an accumulator of
kept components. -/
def specResolveComponents : List String → List String → List String
  | acc, [] => acc
  | acc, c :: rest =>
    if c = "" ∨ c = "." then specResolveComponents acc rest
    else if c = ".." then specResolveComponents acc.dropLast rest
    else specResolveComponents (acc ++ [c]) rest

/-- Splits a path string at `/`. -/
def splitSlash (p : String) : List String :=
  (splitCharsAux (fun c => c = '/') p.toList []).map (fun l => (⟨l⟩ : String))

/-- Joins path components with `/`. -/
def joinSlash : List String → String
  | [] => ""
  | [x] => x
  | x :: y :: rest => x ++ "/" ++ joinSlash (y :: rest)

/-- Modelled from the spec (claim C4): the "canonicalized absolute form" of
a path — `.`/`..` components resolved over an absolute path. Symlink
resolution is an OS effect outside a pure string model and is not needed by
the inputs considered. This definition follows the spec\x27s words, not the
source, and exists only to be compared against `handle_cd`. -/
def specCanonicalize (p : String) : String :=
  "/" ++ joinSlash (specResolveComponents [] (splitSlash p))

/-! ## Derived definitions used by the theorems -/

/-- Replaces the wall-clock duration of a spawn outcome, leaving exit
status and captured output untouched. -/
def setElapsed (n : Nat) : SpawnOutcome → SpawnOutcome
  | .ok r => .ok { r with elapsedMs := n }
  | .err k m => .err k m

/-- The value the parser would report for a prefix if it kept the **last**
matching line: the last line of `lines` starting with `pre`, with the prefix
stripped and the remainder trimmed (empty when no line matches). -/
def lastPrefixVal (pre : String) (lines : List String) : String :=
  match (lines.filter (fun l => rustStartsWith l pre)).getLast? with
  | some l => rustTrim (rustTrimStartMatches l pre)
  | none => ""

/-- The first whitespace-delimited token of a command line
(`command.split_whitespace().next().unwrap_or("")`). -/
def firstTok (s : String) : String := (rustSplitWhitespace s).headD ""

/-- Concrete environment: every command resolves, every directory change
succeeds, every spawn completes with exit status 0, empty stderr and a
31-second wall-clock duration. -/
def envSlow : ExecEnv :=
  { which := fun _ => true,
    setCurrentDirOk := fun _ => true,
    osErr := fun _ => "os error 2",
    osCurrentDirBefore := some "/work",
    osCurrentDirAfter := some "/work",
    spawn := fun _ _ => .ok { success := true, stdout := "out", stderr := "", elapsedMs := 31000 },
    aiSuggest := fun _ _ => "S" }

/-- Concrete environment: every spawn completes with exit status 0 but with
non-empty stderr text `warn`. -/
def envWarn : ExecEnv :=
  { which := fun _ => true,
    setCurrentDirOk := fun _ => true,
    osErr := fun _ => "os error 2",
    osCurrentDirBefore := some "/work",
    osCurrentDirAfter := some "/work",
    spawn := fun _ _ => .ok { success := true, stdout := "out", stderr := "warn", elapsedMs := 0 },
    aiSuggest := fun _ _ => "S" }

/-- Concrete environment: no directory change ever succeeds. -/
def envNoDir : ExecEnv :=
  { which := fun _ => true,
    setCurrentDirOk := fun _ => false,
    osErr := fun _ => "os error 2",
    osCurrentDirBefore := some "/work",
    osCurrentDirAfter := some "/work",
    spawn := fun _ _ => .ok { success := true, stdout := "out", stderr := "", elapsedMs := 0 },
    aiSuggest := fun _ _ => "S" }

/-- Concrete terminal environment: everything on the path, every path
exists, empty directory listing. -/
def termEnvAll : TermEnv :=
  { which := fun _ => true, pathExists := fun _ => true,
    readDirOk := true, entries := [] }

/-! ## Sanity checks on concrete inputs -/

example : rustTrim "  a b  " = "a b" := by decide
example : rustStartsWith "cd src" "cd " = true := by decide
example : splitn2 "cd my dir" = ("cd", "my dir") := by decide
example : splitn2 "ls" = ("ls", "") := by decide
example : rustSplitWhitespace "go to src" = ["go", "to", "src"] := by decide
example : rustLines "a\nb\n" = ["a", "b"] := by decide
example : rustLines "" = [] := by decide
example : rustTrimStartMatches "cd cd x" "cd " = "x" := by decide
example : rustContainsStr "no model found" "model" = true := by decide
example : joinSpace (["go", "to", "src"].drop 2) = "src" := by decide
example : joinSpace (["open", "src"].drop 2) = "" := by decide
example : (execute envWarn "/start" "ls").result =
    .error (.CommandExecutionError "warn\n\nℹ️ Suggestion:\nS") := by decide
example : (execute envWarn "/start" "ls").aiCalls = 1 := by decide
example : (execute envWarn "/a/b" "cd ..").dir = "/a/b/.." := by decide
example : (execute envWarn "/a/b" "cd ..").result = .ok "" := by decide
example : (execute envWarn "/start" "   ").result =
    .error (.CommandExecutionError "Empty command provided") := by decide
example : is_valid_command (fun t => t = "ls") "ls; echo hi" = false := by decide
example : is_valid_command (fun t => t = "ls") "ls && rm x" = true := by decide
example : ollamaExtract "COMMAND: pwd" = ("pwd", "Executes the specified command.") := by decide
example : ollamaExtract "" = ("ls", defaultUnclearExpl) := by decide
example : ollamaExtract "COMMAND: ls -la\nEXPLANATION: lists all files" = ("ls -la", "lists all files") := by decide
example : parseCmdExp ["COMMAND: a", "COMMAND: b"] = ("b", "") := by decide
example : specCanonicalize "/a/b/.." = "/a" := by decide
example : process_command ⟨fun _ => true, fun _ => true, true, []⟩ "go to src" = .execDirect "cd src" := by decide
example : process_command ⟨fun _ => true, fun _ => true, true, []⟩ "open src" = .execDirect "cd " := by decide
example : process_command ⟨fun _ => true, fun _ => true, true, []⟩ "change to src" = .execDirect "cd src" := by decide

/-! ## Helper lemmas -/

lemma string_mk_eq_empty_iff (l : List Char) : (⟨l⟩ : String) = "" ↔ l = [] := by
  constructor
  · intro h
    have := congrArg String.data h
    simpa using this
  · intro h
    simp [h]

lemma mem_dropWhile_of_not_ws {l : List Char} {c : Char} (h : c ∈ l)
    (hw : isWs c = false) : c ∈ l.dropWhile isWs := by
  induction l with
  | nil => cases h
  | cons a l ih =>
    rw [List.dropWhile_cons]
    by_cases ha : isWs a = true
    · simp only [ha, if_pos]
      rcases List.mem_cons.mp h with h1 | h1
      · exact absurd (h1 ▸ ha) (by simp [hw])
      · exact ih h1
    · simp only [ha, if_neg]
      exact h

lemma rustTrim_ne_empty_of_mem {s : String} {c : Char} (hc : c ∈ s.toList)
    (hw : isWs c = false) : rustTrim s ≠ "" := by
  intro h
  rw [rustTrim, string_mk_eq_empty_iff, List.reverse_eq_nil_iff,
    List.dropWhile_eq_nil_iff] at h
  have h1 : c ∈ (s.toList.dropWhile isWs).reverse :=
    List.mem_reverse.mpr (mem_dropWhile_of_not_ws hc hw)
  have := h c h1
  simp [hw] at this

lemma toList_append (s t : String) : (s ++ t).toList = s.toList ++ t.toList := by
  simp [String.toList, String.data_append]

lemma toList_cd_append (args : String) :
    ("cd " ++ args).toList = 'c' :: 'd' :: ' ' :: args.toList := by
  rw [toList_append]
  rfl

lemma splitn2_cd (args : String) : splitn2 ("cd " ++ args) = ("cd", args) := by
  rw [splitn2, toList_cd_append]
  rw [List.takeWhile_cons_of_pos (by decide), List.takeWhile_cons_of_pos (by decide),
    List.takeWhile_cons_of_neg (by simp), List.dropWhile_cons_of_pos (by decide),
    List.dropWhile_cons_of_pos (by decide), List.dropWhile_cons_of_neg (by simp)]
  constructor

lemma rustTrim_cd_ne (args : String) : rustTrim ("cd " ++ args) ≠ "" :=
  rustTrim_ne_empty_of_mem (c := 'c')
    (by rw [toList_cd_append]; exact List.mem_cons_self _ _) (by decide)

/-- `execute` routes `cd <args>` to `handle_cd`. -/
lemma execute_cd (env : ExecEnv) (cur args : String) :
    execute env cur ("cd " ++ args) = handle_cd env cur args := by
  rw [execute, if_neg (rustTrim_cd_ne args), splitn2_cd]
  simp

/-- Unfolding of `execute` once the input is non-empty, not `cd`, and
validator-approved. -/
lemma execute_eq_spawnPhase (env : ExecEnv) (cur command : String)
    (h1 : rustTrim command ≠ "") (h2 : (splitn2 command).1 ≠ "cd")
    (h3 : is_valid_command env.which (splitn2 command).1 = true) :
    execute env cur command =
      executeSpawnPhase env (env.osCurrentDirBefore.getD cur)
        (splitn2 command).1 (splitn2 command).2 command := by
  rw [execute, if_neg h1]
  simp [h2, h3]

/-! ## Claim C5 -/

/-- C5 counterexample: on whitespace-only input `"   "`, `execute` fails —
but with a `CommandExecutionError` (message "Empty command provided"), not
with the `InputError` kind the claim names. No spawn is attempted. -/
theorem c5_counterexample :
    (execute envWarn "/start" "   ").result =
      .error (.CommandExecutionError "Empty command provided") ∧
    DiracResult.isInputError (execute envWarn "/start" "   ").result = false ∧
    (execute envWarn "/start" "   ").spawnedArg = none := by decide

/-- C5 (amended): for every input whose raw text is empty or whitespace-only,
`execute` returns a failure of the `CommandExecutionError` kind with message
"Empty command provided", leaves the directory untouched, never attempts to
spawn a process, and makes no AI call. -/
theorem c5_empty_input_rejected (env : ExecEnv) (dir command : String)
    (h : rustTrim command = "") :
    execute env dir command =
      { result := .error (.CommandExecutionError "Empty command provided"),
        dir := dir, spawnedArg := none, aiCalls := 0 } := by
  rw [execute, if_pos h]

/-- Witness for `c5_empty_input_rejected` at the whitespace input `" \t "`. -/
theorem c5_empty_input_rejected_witness :
    execute envWarn "/d" " \t " =
      { result := .error (.CommandExecutionError "Empty command provided"),
        dir := "/d", spawnedArg := none, aiCalls := 0 } :=
  c5_empty_input_rejected envWarn "/d" " \t " (by decide)

/-! ## Claim C4 -/

/-- C4 counterexample: with every directory change accepted, `cd ..` from
`/a/b` stores the literal join `/a/b/..`, not its canonicalized form `/a`;
and `cd ~` stores `/a/b/~` — the leading `~` is not expanded. -/
theorem c4_counterexample :
    (handle_cd envWarn "/a/b" "..").result = .ok "" ∧
    (handle_cd envWarn "/a/b" "..").dir = "/a/b/.." ∧
    specCanonicalize "/a/b/.." = "/a" ∧
    (handle_cd envWarn "/a/b" "..").dir ≠ specCanonicalize "/a/b/.." ∧
    (handle_cd envWarn "/a/b" "~").dir = "/a/b/~" := by decide

/-- C4 (amended): a `cd` target is resolved by taking it verbatim when it
starts with `/` and otherwise string-joining `{current_dir}/{target}`; no
`~` expansion and no canonicalization happen, and after a successful
`cd X`, `DirectoryState.read()` equals that literal joined string. -/
theorem c4_literal_join (env : ExecEnv) (cur args : String)
    (h1 : rustTrim args ≠ "")
    (h2 : env.setCurrentDirOk (cdResolve cur (rustTrim args)) = true) :
    execute env cur ("cd " ++ args) = handle_cd env cur args ∧
    handle_cd env cur args =
      { result := .ok "", dir := cdResolve cur (rustTrim args),
        spawnedArg := none, aiCalls := 0 } := by
  refine ⟨execute_cd env cur args, ?_⟩
  rw [handle_cd]
  simp [h1, h2]

/-- Witness for `c4_literal_join`: `cd src` from `/a/b` stores `/a/b/src`. -/
theorem c4_literal_join_witness :
    execute envWarn "/a/b" ("cd " ++ "src") = handle_cd envWarn "/a/b" "src" ∧
    handle_cd envWarn "/a/b" "src" =
      { result := .ok "", dir := "/a/b/src", spawnedArg := none, aiCalls := 0 } := by
  have h := c4_literal_join envWarn "/a/b" "src" (by decide) (by decide)
  exact ⟨h.1, h.2.trans (by decide)⟩

/-! ## Claim C8 -/

/-- C8: when the resolved `cd` target is rejected by the OS, the directory
cell is unchanged and the failure carries the path-keyed suggestion:
`back` → `cd ..`; a target containing `/` → check existence/permissions;
a bare name → `cd ..` or `cd ~`. -/
theorem c8_cd_failure_suggestions (env : ExecEnv) (cur args : String)
    (h1 : rustTrim args ≠ "")
    (h2 : env.setCurrentDirOk (cdResolve cur (rustTrim args)) = false) :
    execute env cur ("cd " ++ args) = handle_cd env cur args ∧
    (handle_cd env cur args).dir = cur ∧
    (handle_cd env cur args).result = .error (.CommandExecutionError
      ("Failed to change directory: " ++ env.osErr (cdResolve cur (rustTrim args)) ++
       "\n\nℹ️ Suggestion:\n" ++ cdFailSuggestion (rustTrim args))) ∧
    (rustTrim args = "back" →
      cdFailSuggestion (rustTrim args) =
        "Use \x27cd ..\x27 to navigate to the parent directory.") ∧
    (rustTrim args ≠ "back" → rustContainsChar (rustTrim args) '/' = true →
      cdFailSuggestion (rustTrim args) =
        "Make sure the directory exists and you have permission to access it.") ∧
    (rustTrim args ≠ "back" → rustContainsChar (rustTrim args) '/' = false →
      cdFailSuggestion (rustTrim args) =
        "Use \x27cd ..\x27 to go up one directory or \x27cd ~\x27 to go to your home directory.") := by
  refine ⟨execute_cd env cur args, ?_, ?_, ?_, ?_, ?_⟩
  · rw [handle_cd]; simp [h1, h2]
  · rw [handle_cd]; simp [h1, h2]
  · intro hb; simp [cdFailSuggestion, hb]
  · intro hb hc; simp [cdFailSuggestion, hb, hc]
  · intro hb hc; simp [cdFailSuggestion, hb, hc]

/-- Witness for `c8_cd_failure_suggestions` at the special-cased target
`back` in an environment where no directory change succeeds. -/
theorem c8_cd_failure_suggestions_witness :
    (handle_cd envNoDir "/a" "back").dir = "/a" ∧
    (handle_cd envNoDir "/a" "back").result = .error (.CommandExecutionError
      ("Failed to change directory: os error 2\n\nℹ️ Suggestion:\nUse \x27cd ..\x27 to navigate to the parent directory.")) := by
  have h := c8_cd_failure_suggestions envNoDir "/a" "back" (by decide) (by decide)
  refine ⟨h.2.1, ?_⟩
  rw [h.2.2.1, h.2.2.2.1 (by decide)]
  decide

/-! ## Claim C1 -/

/-- C1 counterexample: a spawn that exits with status 0 but writes `warn`
to stderr does **not** produce a success with an advisory warning — `execute`
returns a Failure (command.rs line 159 keys on `!stderr.is_empty()`). -/
theorem c1_counterexample :
    envWarn.spawn "ls" (some "/work") =
      .ok { success := true, stdout := "out", stderr := "warn", elapsedMs := 0 } ∧
    DiracResult.isOk (execute envWarn "/start" "ls").result = false := by decide

/-- C1 (amended): for a non-cd, validated command whose spawn completes,
`execute` succeeds (returning the captured stdout) **iff** the exit status
is zero **and** stderr is empty; a zero exit status with non-empty stderr
yields a Failure and triggers one AI-suggestion call, never a success with
a warning. -/
theorem c1_stderr_is_failure (env : ExecEnv) (cur command : String) (r : SpawnResult)
    (h1 : rustTrim command ≠ "") (h2 : (splitn2 command).1 ≠ "cd")
    (h3 : is_valid_command env.which (splitn2 command).1 = true)
    (h4 : ∀ cwdArg, env.spawn command cwdArg = .ok r) :
    ((execute env cur command).result = .ok r.stdout ↔
      (r.success = true ∧ r.stderr = "")) ∧
    (r.success = true → r.stderr ≠ "" →
      DiracResult.isOk (execute env cur command).result = false ∧
      (execute env cur command).aiCalls = 1) := by
  rw [execute_eq_spawnPhase env cur command h1 h2 h3, executeSpawnPhase, h4]
  by_cases hs : r.success = true
  · by_cases he : r.stderr = ""
    · simp [hs, he]
    · simp [hs, he, h2, DiracResult.isOk]
  · rw [Bool.not_eq_true] at hs
    by_cases he : r.stderr = ""
    · simp [hs, he, DiracResult.isOk]
    · simp [hs, he, DiracResult.isOk]

/-- Witness for `c1_stderr_is_failure` at `ls` in `envWarn` (status 0,
stderr `warn`): the result is a Failure and one AI call was made. -/
theorem c1_stderr_is_failure_witness :
    DiracResult.isOk (execute envWarn "/start" "ls").result = false ∧
    (execute envWarn "/start" "ls").aiCalls = 1 :=
  (c1_stderr_is_failure envWarn "/start" "ls"
    { success := true, stdout := "out", stderr := "warn", elapsedMs := 0 }
    (by decide) (by decide) (by decide) (fun _ => rfl)).2 rfl (by decide)

/-! ## Claim C3 -/

/-- C3 counterexample: a command whose execution takes 31 000 ms — beyond
the claimed 30-second bound — still returns a plain success with its
captured stdout: there is no timeout and no "timed out" Failure. -/
theorem c3_counterexample :
    envSlow.spawn "./slow" (some "/work") =
      .ok { success := true, stdout := "out", stderr := "", elapsedMs := 31000 } ∧
    30000 < 31000 ∧
    (execute envSlow "/start" "./slow").result = .ok "out" := by decide

/-- C3 (amended): `execute` applies no timeout at all — its outcome is
completely independent of how long the spawned command ran: changing the
wall-clock duration of every spawn outcome to an arbitrary value changes
nothing. -/
theorem c3_no_timeout (env : ExecEnv) (cur command : String) (n : Nat) :
    execute { env with spawn := fun c w => setElapsed n (env.spawn c w) } cur command
      = execute env cur command := by
  by_cases h1 : rustTrim command = ""
  · rw [execute, execute, if_pos h1, if_pos h1]
  · rw [execute, execute, if_neg h1, if_neg h1]
    by_cases h2 : (splitn2 command).1 = "cd"
    · simp [h2, handle_cd]
    · by_cases h3 : is_valid_command env.which (splitn2 command).1 = false
      · simp [h2, h3]
      · simp only [h2, h3, if_neg, if_false, ite_false]
        rw [executeSpawnPhase, executeSpawnPhase]
        cases hsp : env.spawn command
            (if monitorPrefixed command then none
             else some (env.osCurrentDirBefore.getD cur)) with
        | err k m => simp [hsp, setElapsed, spawnErrEffects]
        | ok r => simp [hsp, setElapsed]

/-! ## Claim C2 -/

/-- C2 evaluation: `process_command` rewrites `go to src` and
`change to src` to `cd src`, whose direct execution joins the target onto
the prior directory with no AI call — but `open src` is rewritten to
`cd ` with the target dropped (`split_whitespace().skip(2)` skips both
`open` and `src`), so its execution fails with "No path specified for cd"
and the directory is unchanged. -/
theorem c2_navigation_rewrite_eval :
    process_command termEnvAll "go to src" = .execDirect "cd src" ∧
    (execute envWarn "/prior" "cd src").result = .ok "" ∧
    (execute envWarn "/prior" "cd src").dir = "/prior/src" ∧
    (execute envWarn "/prior" "cd src").aiCalls = 0 ∧
    process_command termEnvAll "change to src" = .execDirect "cd src" ∧
    process_command termEnvAll "open src" = .execDirect "cd " ∧
    (execute envWarn "/prior" "cd ").result =
      .error (.CommandExecutionError "No path specified for cd") ∧
    (execute envWarn "/prior" "cd ").dir = "/prior" := by decide

/-! ## Claim C6 -/

lemma ollamaExtract_empty {text : String} (ht : rustTrim text = "") :
    ollamaExtract text = ("ls", defaultUnclearExpl) := by
  simp [ollamaExtract, ht]

lemma ollamaExtract_noCmd {text : String} (ht : rustTrim text ≠ "")
    (hc : (parseCmdExp (rustLines (rustTrim text))).1 = "") :
    ollamaExtract text = ("ls",
      if (parseCmdExp (rustLines (rustTrim text))).2 = "" then defaultUnclearExpl
      else (parseCmdExp (rustLines (rustTrim text))).2) := by
  simp [ollamaExtract, ht, hc]

lemma ollamaExtract_noExpl {text : String} (ht : rustTrim text ≠ "")
    (hc : (parseCmdExp (rustLines (rustTrim text))).1 ≠ "")
    (he : (parseCmdExp (rustLines (rustTrim text))).2 = "") :
    ollamaExtract text =
      ((parseCmdExp (rustLines (rustTrim text))).1, "Executes the specified command.") := by
  simp [ollamaExtract, ht, hc, he]

lemma ollamaExtract_full {text : String} (ht : rustTrim text ≠ "")
    (hc : (parseCmdExp (rustLines (rustTrim text))).1 ≠ "")
    (he : (parseCmdExp (rustLines (rustTrim text))).2 ≠ "") :
    ollamaExtract text = parseCmdExp (rustLines (rustTrim text)) := by
  simp [ollamaExtract, ht, hc, he]

/-- C6: the response parse is total and never yields an empty command or
explanation: an empty/whitespace body gives `ls` with the safe-default
explanation; an empty parsed command gives `ls` keeping a non-empty parsed
explanation; a non-empty command with empty explanation is completed with
the fixed generic text; and the `withResponse` arm of the processor always
returns `Ok` with the re-serialized pair. -/
theorem c6_parser_total_fallbacks (text : String) :
    (ollamaExtract text).1 ≠ "" ∧
    (ollamaExtract text).2 ≠ "" ∧
    (rustTrim text = "" → ollamaExtract text = ("ls", defaultUnclearExpl)) ∧
    (rustTrim text ≠ "" →
      (parseCmdExp (rustLines (rustTrim text))).1 = "" →
        ollamaExtract text = ("ls",
          if (parseCmdExp (rustLines (rustTrim text))).2 = "" then defaultUnclearExpl
          else (parseCmdExp (rustLines (rustTrim text))).2)) ∧
    (rustTrim text ≠ "" →
      (parseCmdExp (rustLines (rustTrim text))).1 ≠ "" →
      (parseCmdExp (rustLines (rustTrim text))).2 = "" →
        ollamaExtract text =
          ((parseCmdExp (rustLines (rustTrim text))).1,
           "Executes the specified command.")) ∧
    (∀ model : String, ollamaProcess model (.reply (.withResponse text)) =
      .ok ("COMMAND: " ++ (ollamaExtract text).1 ++
           "\nEXPLANATION: " ++ (ollamaExtract text).2)) := by
  refine ⟨?_, ?_, fun ht => ollamaExtract_empty ht,
    fun ht hc => ollamaExtract_noCmd ht hc,
    fun ht hc he => ollamaExtract_noExpl ht hc he,
    fun model => rfl⟩
  · by_cases ht : rustTrim text = ""
    · rw [ollamaExtract_empty ht]; decide
    · by_cases hc : (parseCmdExp (rustLines (rustTrim text))).1 = ""
      · rw [ollamaExtract_noCmd ht hc]
        show ("ls" : String) ≠ ""
        decide
      · by_cases he : (parseCmdExp (rustLines (rustTrim text))).2 = ""
        · rw [ollamaExtract_noExpl ht hc he]; exact hc
        · rw [ollamaExtract_full ht hc he]; exact hc
  · by_cases ht : rustTrim text = ""
    · rw [ollamaExtract_empty ht]; decide
    · by_cases hc : (parseCmdExp (rustLines (rustTrim text))).1 = ""
      · rw [ollamaExtract_noCmd ht hc]
        by_cases he : (parseCmdExp (rustLines (rustTrim text))).2 = ""
        · rw [if_pos he]
          show defaultUnclearExpl ≠ ""
          decide
        · rw [if_neg he]
          exact he
      · by_cases he : (parseCmdExp (rustLines (rustTrim text))).2 = ""
        · rw [ollamaExtract_noExpl ht hc he]
          show ("Executes the specified command." : String) ≠ ""
          decide
        · rw [ollamaExtract_full ht hc he]; exact he

/-- Witness for `c6_parser_total_fallbacks` at the explanation-less body
`COMMAND: pwd`. -/
theorem c6_parser_total_fallbacks_witness :
    ollamaExtract "COMMAND: pwd" = ("pwd", "Executes the specified command.") :=
  ((c6_parser_total_fallbacks "COMMAND: pwd").2.2.2.2.1
    (by decide) (by decide) (by decide)).trans (by decide)

/-! ## Claim C9 -/

lemma head_of_isPrefixOf {pre l : List Char} {c : Char} (hp : pre.head? = some c)
    (h : pre.isPrefixOf l = true) : l.head? = some c := by
  cases pre with
  | nil => cases hp
  | cons a as =>
    cases l with
    | nil => simp [List.isPrefixOf] at h
    | cons b bs =>
      simp only [List.isPrefixOf, Bool.and_eq_true, beq_iff_eq] at h
      simp only [List.head?] at hp ⊢
      rw [← h.1]
      exact hp

lemma not_cmd_and_expl {l : String} (hc : rustStartsWith l "COMMAND:" = true)
    (he : rustStartsWith l "EXPLANATION:" = true) : False := by
  rw [rustStartsWith] at hc he
  have h1 : l.toList.head? = some 'C' := head_of_isPrefixOf (by decide) hc
  have h2 : l.toList.head? = some 'E' := head_of_isPrefixOf (by decide) he
  rw [h1] at h2
  simp at h2

lemma lastPrefixVal_append_pos (pre : String) (ls : List String) (x : String)
    (h : rustStartsWith x pre = true) :
    lastPrefixVal pre (ls ++ [x]) = rustTrim (rustTrimStartMatches x pre) := by
  rw [lastPrefixVal, List.filter_append]
  simp [List.filter, h, List.getLast?_concat]

lemma lastPrefixVal_append_neg (pre : String) (ls : List String) (x : String)
    (h : rustStartsWith x pre = false) :
    lastPrefixVal pre (ls ++ [x]) = lastPrefixVal pre ls := by
  rw [lastPrefixVal, lastPrefixVal, List.filter_append]
  simp [List.filter, h]

/-- C9 counterexample: with `COMMAND:`/`EXPLANATION:` lines appearing twice,
the parse yields the **last** occurrences `("b", "y")`, not the first
occurrences `("a", "x")` the claim states. -/
theorem c9_counterexample :
    ollamaExtract "COMMAND: a\nEXPLANATION: x\nCOMMAND: b\nEXPLANATION: y" =
      ("b", "y") ∧
    (("b" : String), ("y" : String)) ≠ (("a" : String), ("x" : String)) := by
  decide

/-- C9 (amended): the parser extracts the **last** line bearing each prefix:
the fold overwrites on every match, so the parsed command is the trimmed
remainder of the last `COMMAND:` line and the parsed explanation that of the
last `EXPLANATION:` line. -/
theorem c9_last_line_wins (lines : List String) :
    parseCmdExp lines =
      (lastPrefixVal "COMMAND:" lines, lastPrefixVal "EXPLANATION:" lines) := by
  induction lines using List.reverseRecOn with
  | nil => rfl
  | append_singleton ls x ih =>
    rw [parseCmdExp, List.foldl_append, List.foldl_cons, List.foldl_nil,
      ← parseCmdExp, ih]
    by_cases hc : rustStartsWith x "COMMAND:" = true
    · have he : rustStartsWith x "EXPLANATION:" = false := by
        cases hx : rustStartsWith x "EXPLANATION:"
        · rfl
        · exact absurd (not_cmd_and_expl hc hx) (fun h => h)
      rw [lastPrefixVal_append_pos _ _ _ hc, lastPrefixVal_append_neg _ _ _ he]
      simp [hc]
    · by_cases he : rustStartsWith x "EXPLANATION:" = true
      · rw [lastPrefixVal_append_neg _ _ _ (by simpa using hc),
          lastPrefixVal_append_pos _ _ _ he]
        simp [hc, he]
      · rw [lastPrefixVal_append_neg _ _ _ (by simpa using hc),
          lastPrefixVal_append_neg _ _ _ (by simpa using he)]
        simp [hc, he]

/-! ## Claim C7 -/

lemma string_data_ext {s t : String} (h : s.data = t.data) : s = t := by
  cases s; cases t; exact congrArg String.mk h

lemma rustContainsStr_of_infix {s m : String} (h : m.toList <:+: s.toList) :
    rustContainsStr s m = true := by
  rcases h with ⟨pre, suf, hps⟩
  rw [rustContainsStr, List.any_eq_true]
  refine ⟨m.toList ++ suf, ?_, ?_⟩
  · rw [List.mem_tails]
    exact ⟨pre, by rw [← List.append_assoc, hps]⟩
  · exact List.isPrefixOf_iff_prefix.mpr ⟨suf, rfl⟩

lemma ne_of_toList_head {s t : String} {c1 c2 : Char}
    (hs : s.toList.head? = some c1) (ht : t.toList.head? = some c2)
    (hc : c1 ≠ c2) : s ≠ t := by
  intro h
  rw [h, ht] at hs
  exact hc (Option.some.inj hs).symm

lemma head_failedConnect (cause : String) :
    ("Failed to connect to AI service: " ++ cause).toList.head? = some 'F' := by
  rw [toList_append]
  rfl

/-- C7: each transport failure maps to its own reported condition —
connection refused yields the "service not running" message carrying the
install/start steps and the model-pull command; timeout yields the
"timed out" message; any other transport failure appends the cause to the
generic "failed to connect" text; the three are pairwise distinct; and a
service reply whose error text mentions "model" yields the model-not-found
remediation naming the configured model identifier. -/
theorem c7_transport_error_mapping (model cause msg : String)
    (hm : rustContainsStr msg "model" = true) :
    ollamaProcess model .connectErr = .error (.AIProcessingError connectMsg) ∧
    rustContainsStr connectMsg "Visit https://ollama.ai to download and install Ollama" = true ∧
    rustContainsStr connectMsg "Start the Ollama service" = true ∧
    rustContainsStr connectMsg "ollama pull qwen2.5:3b" = true ∧
    ollamaProcess model .timeoutErr = .error (.AIProcessingError timeoutMsg) ∧
    rustContainsStr timeoutMsg "timed out" = true ∧
    ollamaProcess model (.otherErr cause) =
      .error (.AIProcessingError ("Failed to connect to AI service: " ++ cause)) ∧
    connectMsg ≠ timeoutMsg ∧
    connectMsg ≠ "Failed to connect to AI service: " ++ cause ∧
    timeoutMsg ≠ "Failed to connect to AI service: " ++ cause ∧
    ollamaProcess model (.reply (.withError msg)) =
      .error (.AIProcessingError (modelNotFoundMsg model)) ∧
    rustContainsStr (modelNotFoundMsg model) model = true := by
  refine ⟨rfl, by decide, by decide, by decide, rfl, by decide, rfl, by decide,
    ?_, ?_, ?_, ?_⟩
  · exact @ne_of_toList_head _ _ 'O' 'F' (by decide)
      (head_failedConnect cause) (by decide)
  · exact @ne_of_toList_head _ _ 'C' 'F' (by decide)
      (head_failedConnect cause) (by decide)
  · rw [ollamaProcess]
    simp [hm]
  · refine rustContainsStr_of_infix ⟨"Model \x27".toList,
      ("\x27 not found. To install the model:\n" ++ "1. Ensure Ollama is running\n" ++
       "2. Run \x27ollama pull " ++ model ++ "\x27 to download the model").toList, ?_⟩
    simp [modelNotFoundMsg, String.toList, String.data_append, List.append_assoc]

/-- Witness for `c7_transport_error_mapping` with the default model and a
service error text mentioning "model". -/
theorem c7_transport_error_mapping_witness :
    ollamaProcess "qwen2.5:3b" (.reply (.withError "bad model load")) =
      .error (.AIProcessingError (modelNotFoundMsg "qwen2.5:3b")) ∧
    rustContainsStr (modelNotFoundMsg "qwen2.5:3b") "qwen2.5:3b" = true := by
  have h := c7_transport_error_mapping "qwen2.5:3b" "boom" "bad model load" (by decide)
  exact ⟨h.2.2.2.2.2.2.2.2.2.2.1, h.2.2.2.2.2.2.2.2.2.2.2⟩

/-! ## Claim C10 -/

/-- C10 counterexample: with a search path resolving exactly `ls`, the
input `ls` validates but `ls; echo hi` does **not** — its first whitespace
token is `ls;`, not `ls`, so the claim\x27s example "ls; anything validates
whenever ls does" fails. -/
theorem c10_counterexample :
    is_valid_command (fun u => u == "ls") "ls" = true ∧
    is_valid_command (fun u => u == "ls") "ls; echo hi" = false := by decide

/-- C10 (amended): `is_valid_command` looks only at the first whitespace
token — it accepts exactly when that token is non-empty and either equals
`cd` or resolves via `which`; inputs sharing a first token validate
identically (so `ls && anything` validates whenever `ls` does, while
`ls; anything` carries first token `ls;`); and a validated non-cd command
is passed verbatim, in full, as the single shell `-c` argument. -/
theorem c10_first_token_decides (which : String → Bool) (s t : String)
    (env : ExecEnv) (cur command : String)
    (h1 : rustTrim command ≠ "") (h2 : (splitn2 command).1 ≠ "cd")
    (h3 : is_valid_command env.which (splitn2 command).1 = true) :
    (is_valid_command which s = true ↔
      (firstTok s ≠ "" ∧ (firstTok s = "cd" ∨ which (firstTok s) = true))) ∧
    (firstTok s = firstTok t →
      is_valid_command which s = is_valid_command which t) ∧
    (execute env cur command).spawnedArg = some command := by
  have hval : ∀ u : String, is_valid_command which u =
      (if firstTok u = "" then false
       else if firstTok u = "cd" then true else which (firstTok u)) :=
    fun u => rfl
  refine ⟨?_, ?_, ?_⟩
  · rw [hval s]
    by_cases h0 : firstTok s = ""
    · simp [h0]
    · by_cases hcd : firstTok s = "cd"
      · simp [h0, hcd]
      · simp [h0, hcd]
  · intro h
    rw [hval s, hval t, h]
  · rw [execute_eq_spawnPhase env cur command h1 h2 h3, executeSpawnPhase]
    cases hsp : env.spawn command (if monitorPrefixed command then none
        else some (env.osCurrentDirBefore.getD cur)) with
    | err k m =>
      by_cases hmon : monitorPrefixed command = true
      · simp [hmon]
      · cases k <;> simp [hmon, spawnErrEffects]
    | ok r =>
      by_cases hfail : r.success = false ∨ r.stderr ≠ ""
      · simp [hfail]
      · simp [hfail]

/-- Witness for `c10_first_token_decides`: the validated command `ls`
reaches the shell verbatim as the `-c` argument. -/
theorem c10_first_token_decides_witness :
    (execute envWarn "/start" "ls").spawnedArg = some "ls" :=
  (c10_first_token_decides (fun u => u == "ls") "ls && rm x" "ls -la"
    envWarn "/start" "ls" (by decide) (by decide) (by decide)).2.2

end Dirac
